import Mathlib

/-!
Verification of the typed external-buffer view adapter in
`src/src/2014-07-25-using-bigmemory-with-rcpparmadillo.cpp`.

The C++ file defines a dispatch wrapper `someArmaFunction(SEXP)`.  It
resolves the external pointer to a `BigMatrix` descriptor `xpMat`, reads
`unsigned int type = xpMat->matrix_type()`, and branches:

  type == 1  →  someArmaFunction<char>  (arma::Mat<char>((char *)p, nrow, ncol, false))
  type == 2  →  someArmaFunction<short> (arma::Mat<short>(..., false))
  type == 4  →  someArmaFunction<int>   (arma::Mat<int>(..., false))
  type == 8  →  someArmaFunction<double>(arma::Mat<double>(..., false))
  otherwise  →  throw Rcpp::exception("Undefined type for provided big.matrix")

The fourth constructor argument is `copy_aux_mem = false`; the fifth
(`strict`) is omitted and takes the constructor's declared default `false`.
The source's own comment describes `strict=true` as "the advanced option
... if you want to modify the size of the matrix later", so `strict`
is the resize-permission flag of the view.

Note on the source text: inside the branches the source reads
`xpDat->matrix()`, `xpDat->nrow()`, `xpDat->ncol()`, while the only
external pointer in scope is named `xpMat`; the embedding reads `xpDat`
as that same descriptor.

The templated `someArmaFunction<T>` body is an unimplemented stub, so the
dispatcher is modelled as returning the trace of downstream invocations
(the list of typed views it passes), or the thrown exception message.
-/

/-- The four element types of the dispatch domain, named as in the C++
template instantiations: `char` (8-bit), `short` (16-bit), `int` (32-bit),
`double` (64-bit float). -/
inductive ElemType where
  | char
  | short
  | int
  | double
deriving DecidableEq

/-- The `BigMatrix` descriptor reached through the external pointer:
buffer address (`matrix()`, modelled as an abstract address), `nrow()`,
`ncol()`, and the `matrix_type()` tag (an unsigned int). -/
structure BigMatrix where
  matrix : Nat
  nrow : Nat
  ncol : Nat
  matrix_type : Nat
deriving DecidableEq

/-- An `arma::Mat<T>` built by the advanced constructor: element type
of the instantiation, auxiliary-memory address, dimensions, the
`copy_aux_mem` flag and the `strict` flag. -/
structure ArmaMat where
  elemType : ElemType
  aux_mem : Nat
  n_rows : Nat
  n_cols : Nat
  copy_aux_mem : Bool
  strict : Bool
deriving DecidableEq

/-- The advanced `arma::Mat` constructor
`Mat(ptr_aux_mem, n_rows, n_cols, copy_aux_mem, strict)`. -/
def armaMatAdv (et : ElemType) (aux n_rows n_cols : Nat)
    (copy_aux_mem strict : Bool) : ArmaMat :=
  ⟨et, aux, n_rows, n_cols, copy_aux_mem, strict⟩

/-- The four-argument constructor form used at every dispatch call site:
`strict` is omitted and takes its declared default `false`. -/
def armaMat4 (et : ElemType) (aux n_rows n_cols : Nat)
    (copy_aux_mem : Bool) : ArmaMat :=
  armaMatAdv et aux n_rows n_cols copy_aux_mem false

/-- The message of the `Rcpp::exception` thrown on an unhandled tag. -/
def undefinedTypeMsg : String := "Undefined type for provided big.matrix"

/-- The dispatch wrapper `someArmaFunction(SEXP)`.  The result is the
trace of downstream `someArmaFunction<T>` invocations (each carrying the
typed view passed to it), or the exception message thrown.  Mirrors the
source's if/else-if chain on `type` statement by statement. -/
def someArmaFunction (xpMat : BigMatrix) : Except String (List ArmaMat) :=
  let type := xpMat.matrix_type
  if type = 1 then
    Except.ok [armaMat4 ElemType.char xpMat.matrix xpMat.nrow xpMat.ncol false]
  else if type = 2 then
    Except.ok [armaMat4 ElemType.short xpMat.matrix xpMat.nrow xpMat.ncol false]
  else if type = 4 then
    Except.ok [armaMat4 ElemType.int xpMat.matrix xpMat.nrow xpMat.ncol false]
  else if type = 8 then
    Except.ok [armaMat4 ElemType.double xpMat.matrix xpMat.nrow xpMat.ncol false]
  else
    Except.error undefinedTypeMsg

/-- The tag → element-type table as the specification states it
(section 6: values 1, 2, 4, 8 map to 8-bit int, 16-bit int, 32-bit int,
64-bit float; any other value is invalid).  A spec-side definition, to be
compared with the source's dispatch chain. -/
def specTagToElemType (t : Nat) : Option ElemType :=
  if t = 1 then some ElemType.char
  else if t = 2 then some ElemType.short
  else if t = 4 then some ElemType.int
  else if t = 8 then some ElemType.double
  else none

/-- Modelled from the spec: `arma::Mat` is an external library type not
part of this repository, so its element access is taken from the spec's
column-major contract — the element at (row r, col c) of an R-row view
lives at linear offset `c*R + r` of the buffer the view aliases.  `buf`
is the logical element content of the buffer at the view's `aux_mem`. -/
def ArmaMat.elemAt (buf : List Int) (M : ArmaMat) (r c : Nat) : Option Int :=
  buf.get? (c * M.n_rows + r)

/-- Whether the view may be resized/reshaped in place: per the source's
comment, `strict=true` is the option for modifying the size of the matrix
later, so the resize permission is the `strict` flag. -/
def allowResize (M : ArmaMat) : Bool := M.strict

/-- The dispatch wrapper with the mutable environment threaded explicitly:
the descriptor and the buffer contents are the state, and each branch of
the source performs only reads (`matrix_type()`, `matrix()`, `nrow()`,
`ncol()`) and constructor calls, so each branch returns the state it was
given. -/
def someArmaFunction_run (xpMat : BigMatrix) (buf : List Int) :
    Except String (List ArmaMat) × BigMatrix × List Int :=
  let type := xpMat.matrix_type
  if type = 1 then
    (Except.ok [armaMat4 ElemType.char xpMat.matrix xpMat.nrow xpMat.ncol false], xpMat, buf)
  else if type = 2 then
    (Except.ok [armaMat4 ElemType.short xpMat.matrix xpMat.nrow xpMat.ncol false], xpMat, buf)
  else if type = 4 then
    (Except.ok [armaMat4 ElemType.int xpMat.matrix xpMat.nrow xpMat.ncol false], xpMat, buf)
  else if type = 8 then
    (Except.ok [armaMat4 ElemType.double xpMat.matrix xpMat.nrow xpMat.ncol false], xpMat, buf)
  else
    (Except.error undefinedTypeMsg, xpMat, buf)

/-- The branch the dispatcher takes, observed as the element-type
instantiations of the downstream calls (or the error): forgets the
address, dimensions and flags of the views. -/
def dispatchBranch (d : BigMatrix) : Except String (List ElemType) :=
  Except.map (List.map ArmaMat.elemType) (someArmaFunction d)

lemma someArmaFunction_run_eq (d : BigMatrix) (buf : List Int) :
    someArmaFunction_run d buf = (someArmaFunction d, d, buf) := by
  simp only [someArmaFunction_run, someArmaFunction]
  split_ifs <;> rfl

/-- C1: for every descriptor whose tag is in the table {1,2,4,8}, dispatch
selects exactly the element type the table gives for that tag and invokes
the downstream computation exactly once (a singleton trace), instantiated
at that element type, with the descriptor's view. -/
theorem dispatch_selects_unique_type (d : BigMatrix) (ty : ElemType)
    (h : specTagToElemType d.matrix_type = some ty) :
    someArmaFunction d =
      Except.ok [armaMat4 ty d.matrix d.nrow d.ncol false] := by
  unfold specTagToElemType at h
  unfold someArmaFunction
  split_ifs at h ⊢ <;> simp_all

/-- Witness for C1 at tag 2 (16-bit int). -/
theorem dispatch_selects_unique_type_witness :
    specTagToElemType 2 = some ElemType.short ∧
    someArmaFunction ⟨1000, 2, 3, 2⟩ =
      Except.ok [armaMat4 ElemType.short 1000 2 3 false] :=
  ⟨rfl, dispatch_selects_unique_type ⟨1000, 2, 3, 2⟩ ElemType.short rfl⟩

/-- C2: for every descriptor whose tag is not 1, 2, 4 or 8, dispatch
throws the exception with the undefined-type message; the result carries
no downstream invocation, so the downstream computation is never invoked
and no default element type is chosen. -/
theorem dispatch_invalid_tag_errors (d : BigMatrix)
    (h : ¬ (d.matrix_type = 1 ∨ d.matrix_type = 2 ∨
            d.matrix_type = 4 ∨ d.matrix_type = 8)) :
    someArmaFunction d = Except.error undefinedTypeMsg := by
  push_neg at h
  obtain ⟨h1, h2, h3, h4⟩ := h
  simp [someArmaFunction, h1, h2, h3, h4]

/-- Witness for C2 at tag 3. -/
theorem dispatch_invalid_tag_errors_witness :
    someArmaFunction ⟨1000, 2, 3, 3⟩ = Except.error undefinedTypeMsg :=
  dispatch_invalid_tag_errors ⟨1000, 2, 3, 3⟩ (by decide)

/-- C3: for every descriptor with a tag in the table, the view handed to
the downstream computation has exactly the descriptor's address, row
count and column count, and its `copy_aux_mem` flag is false, so the
buffer bytes are aliased, not copied. -/
theorem dispatch_view_matches_descriptor (d : BigMatrix)
    (h : (specTagToElemType d.matrix_type).isSome = true) :
    ∃ m, someArmaFunction d = Except.ok [m] ∧
      m.aux_mem = d.matrix ∧ m.n_rows = d.nrow ∧ m.n_cols = d.ncol ∧
      m.copy_aux_mem = false := by
  unfold specTagToElemType at h
  simp only [someArmaFunction]
  split_ifs at h ⊢ <;>
    first
      | exact ⟨_, rfl, rfl, rfl, rfl, rfl⟩
      | simp at h

/-- Witness for C3 at tag 8 (64-bit float). -/
theorem dispatch_view_matches_descriptor_witness :
    (specTagToElemType 8).isSome = true ∧
    ∃ m, someArmaFunction ⟨4096, 5, 7, 8⟩ = Except.ok [m] ∧
      m.aux_mem = 4096 ∧ m.n_rows = 5 ∧ m.n_cols = 7 ∧
      m.copy_aux_mem = false :=
  ⟨rfl, dispatch_view_matches_descriptor ⟨4096, 5, 7, 8⟩ rfl⟩

/-- C4 counterexample: at the concrete invalid tag 3, the thrown message
is the fixed string "Undefined type for provided big.matrix"; the same
message is thrown at the distinct invalid tag 7, and the message contains
no digit character at all, so it does not indicate which invalid tag
value was encountered. -/
theorem dispatch_error_message_lacks_tag :
    someArmaFunction ⟨1000, 2, 3, 3⟩ =
      Except.error "Undefined type for provided big.matrix" ∧
    someArmaFunction ⟨1000, 2, 3, 7⟩ =
      Except.error "Undefined type for provided big.matrix" ∧
    ("Undefined type for provided big.matrix").data.all
      (fun ch => !ch.isDigit) = true :=
  ⟨rfl, rfl, by decide⟩

/-- C4 amended: for every descriptor with an invalid tag, the failure is
immediate (the result of the call itself, with no downstream invocation
recorded) and carries the fixed descriptive message, which does not
include the encountered tag value (it contains no digit). -/
theorem dispatch_error_immediate_fixed_message (d : BigMatrix)
    (h : ¬ (d.matrix_type = 1 ∨ d.matrix_type = 2 ∨
            d.matrix_type = 4 ∨ d.matrix_type = 8)) :
    someArmaFunction d = Except.error undefinedTypeMsg ∧
      undefinedTypeMsg.data.all (fun ch => !ch.isDigit) = true := by
  push_neg at h
  obtain ⟨h1, h2, h3, h4⟩ := h
  exact ⟨by simp [someArmaFunction, h1, h2, h3, h4], by decide⟩

/-- Witness for the amended C4 at tag 9. -/
theorem dispatch_error_immediate_fixed_message_witness :
    someArmaFunction ⟨64, 1, 1, 9⟩ = Except.error undefinedTypeMsg ∧
      undefinedTypeMsg.data.all (fun ch => !ch.isDigit) = true :=
  dispatch_error_immediate_fixed_message ⟨64, 1, 1, 9⟩ (by decide)

/-- C5: for every descriptor with a valid tag, the constructed view has
its `strict` flag false (the call sites omit it, so it takes the
constructor's default), and per the source's reading of `strict` as the
resize-permission option, the view does not allow resizing. -/
theorem dispatch_view_strict_false (d : BigMatrix)
    (h : (specTagToElemType d.matrix_type).isSome = true) :
    ∃ m, someArmaFunction d = Except.ok [m] ∧
      m.strict = false ∧ allowResize m = false := by
  unfold specTagToElemType at h
  simp only [someArmaFunction]
  split_ifs at h ⊢ <;>
    first
      | exact ⟨_, rfl, rfl, rfl⟩
      | simp at h

/-- Witness for C5 at tag 4 (32-bit int). -/
theorem dispatch_view_strict_false_witness :
    (specTagToElemType 4).isSome = true ∧
    ∃ m, someArmaFunction ⟨2048, 3, 3, 4⟩ = Except.ok [m] ∧
      m.strict = false ∧ allowResize m = false :=
  ⟨rfl, dispatch_view_strict_false ⟨2048, 3, 3, 4⟩ rfl⟩

/-- C6: every view produced by dispatch reads the element at (row r,
col c) from linear offset `c * nrow + r` of the buffer, where nrow is the
source descriptor's row count (column-major layout). -/
theorem view_reads_column_major (d : BigMatrix) (buf : List Int)
    (m : ArmaMat) (r c : Nat)
    (hm : someArmaFunction d = Except.ok [m]) :
    ArmaMat.elemAt buf m r c = buf.get? (c * d.nrow + r) := by
  have hr : m.n_rows = d.nrow := by
    simp only [someArmaFunction] at hm
    split_ifs at hm <;> simp_all [armaMat4, armaMatAdv] <;>
      subst hm <;> rfl
  unfold ArmaMat.elemAt
  rw [hr]

/-- Witness for C6: the buffer [1,2,3,4,5,6] viewed as a 2×3 matrix reads
3 at (row 0, col 1) and 6 at (row 1, col 2). -/
theorem view_reads_column_major_witness :
    someArmaFunction ⟨500, 2, 3, 8⟩ =
      Except.ok [armaMat4 ElemType.double 500 2 3 false] ∧
    ArmaMat.elemAt [1, 2, 3, 4, 5, 6]
      (armaMat4 ElemType.double 500 2 3 false) 0 1 = some 3 ∧
    ArmaMat.elemAt [1, 2, 3, 4, 5, 6]
      (armaMat4 ElemType.double 500 2 3 false) 1 2 = some 6 :=
  ⟨rfl,
   (view_reads_column_major ⟨500, 2, 3, 8⟩ [1, 2, 3, 4, 5, 6]
      (armaMat4 ElemType.double 500 2 3 false) 0 1 rfl).trans (by decide),
   (view_reads_column_major ⟨500, 2, 3, 8⟩ [1, 2, 3, 4, 5, 6]
      (armaMat4 ElemType.double 500 2 3 false) 1 2 rfl).trans (by decide)⟩

/-- C7: a descriptor with a valid tag and zero rows or zero columns
dispatches without failure, and the downstream computation is invoked on
a view with the descriptor's dimensions, hence an empty view (zero
elements). -/
theorem dispatch_empty_dimensions_ok (d : BigMatrix)
    (h : (specTagToElemType d.matrix_type).isSome = true)
    (h0 : d.nrow = 0 ∨ d.ncol = 0) :
    ∃ m, someArmaFunction d = Except.ok [m] ∧
      m.n_rows = d.nrow ∧ m.n_cols = d.ncol ∧
      m.n_rows * m.n_cols = 0 := by
  unfold specTagToElemType at h
  simp only [someArmaFunction]
  split_ifs at h ⊢ <;>
    first
      | exact ⟨_, rfl, rfl, rfl, by rcases h0 with h0 | h0 <;>
          simp [armaMat4, armaMatAdv, h0]⟩
      | simp at h

/-- Witness for C7: tag 1, zero rows. -/
theorem dispatch_empty_dimensions_ok_witness :
    (specTagToElemType 1).isSome = true ∧ ((0 : Nat) = 0 ∨ (9 : Nat) = 0) ∧
    ∃ m, someArmaFunction ⟨777, 0, 9, 1⟩ = Except.ok [m] ∧
      m.n_rows = 0 ∧ m.n_cols = 9 ∧ m.n_rows * m.n_cols = 0 :=
  ⟨rfl, Or.inl rfl,
   dispatch_empty_dimensions_ok ⟨777, 0, 9, 1⟩ rfl (Or.inl rfl)⟩

/-- C8: dispatch has no side effects beyond the downstream invocations it
records: run with the mutable environment threaded, it returns the
descriptor and the buffer contents unchanged, in the success branches and
in the error branch alike, and its result component is exactly the pure
dispatch result. -/
theorem dispatch_no_side_effects (d : BigMatrix) (buf : List Int) :
    (someArmaFunction_run d buf).2.1 = d ∧
    (someArmaFunction_run d buf).2.2 = buf ∧
    (someArmaFunction_run d buf).1 = someArmaFunction d := by
  rw [someArmaFunction_run_eq]
  exact ⟨rfl, rfl, rfl⟩

/-- C9: two sequential dispatches, the second run on the descriptor and
buffer state left by the first, construct the same view both times — in
particular identical (pointer, rows, cols). -/
theorem dispatch_idempotent (d : BigMatrix) (buf : List Int)
    (h : (specTagToElemType d.matrix_type).isSome = true) :
    ∃ m, (someArmaFunction_run d buf).1 = Except.ok [m] ∧
      (someArmaFunction_run (someArmaFunction_run d buf).2.1
        (someArmaFunction_run d buf).2.2).1 = Except.ok [m] := by
  simp only [someArmaFunction_run_eq]
  unfold specTagToElemType at h
  simp only [someArmaFunction]
  split_ifs at h ⊢ <;>
    first
      | exact ⟨_, rfl, rfl⟩
      | simp at h

/-- Witness for C9 at tag 8. -/
theorem dispatch_idempotent_witness :
    (specTagToElemType 8).isSome = true ∧
    ∃ m, (someArmaFunction_run ⟨300, 4, 2, 8⟩ [0, 1, 2]).1 = Except.ok [m] ∧
      (someArmaFunction_run (someArmaFunction_run ⟨300, 4, 2, 8⟩ [0, 1, 2]).2.1
        (someArmaFunction_run ⟨300, 4, 2, 8⟩ [0, 1, 2]).2.2).1 = Except.ok [m] :=
  ⟨rfl, dispatch_idempotent ⟨300, 4, 2, 8⟩ [0, 1, 2] rfl⟩

/-- C10: the branch dispatch takes — which element type it instantiates,
or the error it throws — depends only on the type tag: two descriptors
with the same tag take the same branch, whatever their address,
dimensions or buffer contents.  (Outcomes of two runs on identical
descriptors coincide definitionally, the model being a function.) -/
theorem dispatch_branch_depends_only_on_tag (d1 d2 : BigMatrix)
    (h : d1.matrix_type = d2.matrix_type) :
    dispatchBranch d1 = dispatchBranch d2 := by
  simp only [dispatchBranch, someArmaFunction]
  rw [h]
  split_ifs <;> rfl

/-- Witness for C10: two descriptors sharing tag 8 but differing in
address, rows and cols take the same branch. -/
theorem dispatch_branch_depends_only_on_tag_witness :
    (⟨0, 0, 0, 8⟩ : BigMatrix).matrix_type = (⟨999, 5, 7, 8⟩ : BigMatrix).matrix_type ∧
    dispatchBranch ⟨0, 0, 0, 8⟩ = dispatchBranch ⟨999, 5, 7, 8⟩ :=
  ⟨rfl, dispatch_branch_depends_only_on_tag ⟨0, 0, 0, 8⟩ ⟨999, 5, 7, 8⟩ rfl⟩
